import Mathlib

/-!
Shallow embedding of `src/main.rs` of the `codex-usage` tool.

Modelling conventions:
* Rust `f64` percentages are modelled as `ℚ` (the claims only involve exact
  decimal values and order comparisons, where `f64` and `ℚ` agree).
* `std::env::var` results are `Option String` (`none` = unset or error).
* File system reads are part of the environment: each candidate `auth.json`
  path contributes an `Option String` (`none` = missing or unreadable).
* `serde_json::from_str::<AuthDotJson>` is an oracle `parseAuth : String →
  Option AuthDotJson` carried in the environment (`none` = parse error).
* The macOS `security find-generic-password` call is an oracle
  `security : String → Option String` (`some out` = exit success with stdout
  `out`; `none` = spawn failure or non-zero status).
* The HTTP transport is an `Option HttpResponse` argument (`none` = send
  failure) together with a parse oracle for the response body.
* ANSI colour codes added by the `colored` crate are elided: only the text
  content of rendered strings is modelled (colour is presentation).
-/

/-- Rust `str::trim` (ASCII-whitespace-faithful model; the tokens in play are
ASCII). Structural recursion so the kernel can evaluate it. -/
def rust_trim (s : String) : String :=
  ⟨((s.data.dropWhile Char.isWhitespace).reverse.dropWhile Char.isWhitespace).reverse⟩

/-- Rust `str::to_uppercase` (ASCII-faithful model). -/
def to_uppercase (s : String) : String :=
  ⟨s.data.map Char.toUpper⟩

/-- `TokenBlock` from `src/main.rs`: the tokens block inside auth.json. -/
structure TokenBlock where
  access_token : Option String
  account_id : Option String
  deriving DecidableEq, Repr

/-- `AuthDotJson` from `src/main.rs`: top-level auth.json schema. -/
structure AuthDotJson where
  tokens : Option TokenBlock
  openai_api_key : Option String
  deriving DecidableEq, Repr

/-- `Credentials` from `src/main.rs`. -/
structure Credentials where
  access_token : String
  account_id : Option String
  is_oauth : Bool
  deriving DecidableEq, Repr

/-- `RateWindow` from `src/main.rs` (`used_percent : Option<f64>` as `Option ℚ`). -/
structure RateWindow where
  used_percent : Option ℚ
  reset_after_seconds : Option ℕ
  deriving DecidableEq, Repr

/-- `RateLimit` from `src/main.rs`. -/
structure RateLimit where
  primary_window : Option RateWindow
  secondary_window : Option RateWindow
  limit_reached : Option Bool
  deriving DecidableEq, Repr

/-- `WhamUsage` from `src/main.rs`. -/
structure WhamUsage where
  plan_type : Option String
  rate_limit : Option RateLimit
  deriving DecidableEq, Repr

/-- The ambient environment `get_credentials` reads from (env vars, the two
candidate auth.json files, the keychain command, and the JSON parser oracle). -/
structure Env where
  codex_access_token : Option String
  codex_account_id : Option String
  openai_api_key : Option String
  authFilePrimary : Option String
  authFileSecondary : Option String
  security : String → Option String
  parseAuth : String → Option AuthDotJson

/-- The fall-through tail of `extract_from_auth` / `read_auth_json`: the
`if let Some(key) = auth.openai_api_key` block (identical in both functions). -/
def extract_key (auth : AuthDotJson) : Option Credentials :=
  match auth.openai_api_key with
  | some key => if key ≠ "" then some ⟨key, none, false⟩ else none
  | none => none

/-- `extract_from_auth` from `src/main.rs` (returns `none` for the
`bail!("no usable token in auth structure")` branch). -/
def extract_from_auth (auth : AuthDotJson) : Option Credentials :=
  match auth.tokens with
  | some tokens =>
    match tokens.access_token with
    | some access_token =>
      if access_token ≠ "" then some ⟨access_token, tokens.account_id, true⟩
      else extract_key auth
    | none => extract_key auth
  | none => extract_key auth

/-- `read_auth_json` from `src/main.rs`, taking the file's raw contents
(the caller handled existence); `none` covers every `bail!`/`Err` branch. -/
def read_auth_json (env : Env) (raw : String) : Option Credentials :=
  match env.parseAuth (rust_trim raw) with
  | none => none
  | some auth =>
    match auth.tokens with
    | some tokens =>
      match tokens.access_token with
      | some access_token =>
        if access_token ≠ "" then some ⟨access_token, tokens.account_id, true⟩
        else extract_key auth
      | none => extract_key auth
    | none => extract_key auth

/-- `service_names` list from `read_keychain` in `src/main.rs`. -/
def service_names : List String := ["Codex", "codex", "openai-codex", "Codex CLI"]

/-- The body of `read_keychain`'s loop for one alias whose command succeeded
with stdout `out`: `none` means the (trimmed) output was empty, i.e. the loop
continues with the next alias. -/
def keychain_attempt (env : Env) (out : String) : Option Credentials :=
  let raw := rust_trim out
  if raw = "" then none
  else some (match env.parseAuth raw with
    | some auth =>
      match extract_from_auth auth with
      | some creds => creds
      | none => ⟨raw, none, true⟩
    | none => ⟨raw, none, true⟩)

/-- The alias loop of `read_keychain` from `src/main.rs`. -/
def read_keychain_go (env : Env) : List String → Option Credentials
  | [] => none
  | service :: rest =>
    match env.security service with
    | some out =>
      match keychain_attempt env out with
      | some creds => some creds
      | none => read_keychain_go env rest
    | none => read_keychain_go env rest

/-- `read_keychain` from `src/main.rs` (`none` = `bail!` at the end). -/
def read_keychain (env : Env) : Option Credentials :=
  read_keychain_go env service_names

/-- The `for path in &candidates` loop of `get_credentials`: each entry is the
contents of a candidate auth.json (`none` = path missing/unreadable); a file
whose `read_auth_json` fails is skipped. -/
def try_files (env : Env) : List (Option String) → Option Credentials
  | [] => none
  | c :: rest =>
    match c with
    | none => try_files env rest
    | some raw =>
      match read_auth_json env raw with
      | some creds => some creds
      | none => try_files env rest

/-- Stages 2–3 of `get_credentials`: the auth.json candidates, then the
keychain. -/
def get_credentials_from_files (env : Env) : Option Credentials :=
  match try_files env [env.authFilePrimary, env.authFileSecondary] with
  | some creds => some creds
  | none => read_keychain env

/-- The `OPENAI_API_KEY` stage of `get_credentials` and everything after it. -/
def get_credentials_from_api_key (env : Env) : Option Credentials :=
  match env.openai_api_key with
  | some key =>
    if rust_trim key ≠ "" then some ⟨rust_trim key, none, false⟩
    else get_credentials_from_files env
  | none => get_credentials_from_files env

/-- `get_credentials` from `src/main.rs`; `none` = the final
`bail!("No OpenAI / Codex credentials found...")`. -/
def get_credentials (env : Env) : Option Credentials :=
  match env.codex_access_token with
  | some token =>
    if rust_trim token ≠ "" then some ⟨rust_trim token, env.codex_account_id, true⟩
    else get_credentials_from_api_key env
  | none => get_credentials_from_api_key env

/-- An HTTP response as seen by `fetch_usage` (status plus body text). -/
structure HttpResponse where
  status : ℕ
  body : String
  deriving DecidableEq, Repr

/-- The distinct `bail!`/`Err` exits of `fetch_usage` in `src/main.rs`. -/
inductive FetchError where
  | apiKeyUnsupported
  | requestFailed
  | unauthorized (status : ℕ)
  | apiError (status : ℕ) (body : String)
  | malformedResponse (body : String)
  deriving DecidableEq, Repr

/-- `reqwest::StatusCode::is_success` (2xx). -/
def status_is_success (status : ℕ) : Bool :=
  decide (200 ≤ status) && decide (status ≤ 299)

/-- `fetch_usage` from `src/main.rs`. The transport is `net : Option
HttpResponse` (`none` = the send failed); `parseUsage` is the
`serde_json::from_str::<WhamUsage>` oracle. -/
def fetch_usage (creds : Credentials) (net : Option HttpResponse)
    (parseUsage : String → Option WhamUsage) : Except FetchError WhamUsage :=
  if !creds.is_oauth then .error .apiKeyUnsupported
  else
    match net with
    | none => .error .requestFailed
    | some resp =>
      if resp.status = 401 ∨ resp.status = 403 then .error (.unauthorized resp.status)
      else if !status_is_success resp.status then .error (.apiError resp.status resp.body)
      else
        match parseUsage resp.body with
        | some usage => .ok usage
        | none => .error (.malformedResponse resp.body)

/-- Rust `f64::round` (round half away from zero), on the ℚ model. -/
def rust_round (q : ℚ) : ℤ :=
  if q < 0 then -⌊-q + 1/2⌋ else ⌊q + 1/2⌋

/-- The filled-cell count of `usage_bar` in `src/main.rs`:
`((pct / 100.0) * width as f64).round() as usize` then `.min(width)`
(`as usize` saturates negative values to 0, hence `Int.toNat`). -/
def usage_bar_filled (pct : ℚ) (width : ℕ) : ℕ :=
  min (rust_round (pct / 100 * width)).toNat width

/-- `format_reset` from `src/main.rs` (colour codes elided). -/
def format_reset (reset_secs : Option ℕ) : String :=
  match reset_secs with
  | none => "—"
  | some secs =>
    if secs = 0 then "now"
    else
      let mins := secs / 60
      let hours := mins / 60
      let days := hours / 24
      if days > 0 then "in " ++ toString days ++ "d " ++ toString (hours % 24) ++ "h"
      else if hours > 0 then "in " ++ toString hours ++ "h " ++ toString (mins % 60) ++ "m"
      else "in " ++ toString mins ++ "m"

/-- The percentage `print_window_fancy` feeds to `usage_bar`:
`w.used_percent.unwrap_or(0.0).min(100.0)`. -/
def print_window_fancy_pct (w : RateWindow) : ℚ :=
  min (w.used_percent.getD 0) 100

/-- Rust's `{:.1}` formatting of an `f64`, on the ℚ model: one fractional
digit, ties rounded to even. -/
def round_half_even (q : ℚ) : ℤ :=
  if q - ⌊q⌋ < 1/2 then ⌊q⌋
  else if 1/2 < q - ⌊q⌋ then ⌊q⌋ + 1
  else if ⌊q⌋ % 2 = 0 then ⌊q⌋ else ⌊q⌋ + 1

/-- `format!("{:.1}", q)` on the ℚ model. -/
def fmt1 (q : ℚ) : String :=
  (if q < 0 then "-" else "")
    ++ toString ((round_half_even (|q| * 10)).toNat / 10)
    ++ "." ++ toString ((round_half_even (|q| * 10)).toNat % 10)

/-- One output line of `print_window_plain` from `src/main.rs`. -/
def print_window_plain (label : String) (window : Option RateWindow) : String :=
  match window with
  | none => label ++ ": N/A"
  | some w =>
    let pct := min (w.used_percent.getD 0) 100
    let reset := match w.reset_after_seconds with
                 | some s => toString s ++ "s"
                 | none => "—"
    label ++ ": " ++ fmt1 pct ++ "% used  Resets in: " ++ reset

/-- The plain-mode output of `run` in `src/main.rs` (each `println!` line
followed by a newline). -/
def run_plain (usage : WhamUsage) : String :=
  let rl := usage.rate_limit
  let limit_reached := (rl.bind (·.limit_reached)).getD false
  let plan := to_uppercase (usage.plan_type.getD "unknown")
  "Plan: " ++ plan ++ "\n"
    ++ print_window_plain "5hr window" (rl.bind (·.primary_window)) ++ "\n"
    ++ print_window_plain "7day window" (rl.bind (·.secondary_window)) ++ "\n"
    ++ (if limit_reached then "Status: LIMIT REACHED\n" else "")

/-- The four closing summary lines of fancy mode in `src/main.rs`. -/
inductive SummaryTier where
  | limitReached
  | nearlyAtLimit
  | elevated
  | plenty
  deriving DecidableEq, Repr

/-- The `highest` fold of `run` in `src/main.rs`:
`[primary, secondary].iter().filter_map(...used_percent.unwrap_or(0.0)).fold(0.0, f64::max)`. -/
def highest_used (primary secondary : Option RateWindow) : ℚ :=
  ([primary, secondary].filterMap (fun w => w.map (fun v => v.used_percent.getD 0))).foldl max 0

/-- The summary-line selection of `run` in `src/main.rs`. -/
def summary_tier (limit_reached : Bool) (highest : ℚ) : SummaryTier :=
  if limit_reached = true ∨ 100 ≤ highest then .limitReached
  else if 90 ≤ highest then .nearlyAtLimit
  else if 70 ≤ highest then .elevated
  else .plenty

/-- The text of each summary line (glyphs and colours elided). -/
def summary_message : SummaryTier → String
  | .limitReached => "Limit reached — check your reset time above."
  | .nearlyAtLimit => "Nearly at your limit — check reset time above."
  | .elevated => "Usage is elevated — consider pacing your session."
  | .plenty => "Looking good — plenty of capacity remaining."

/-- The claim-side "absent window counts as 0" percentage used in §4.3's
summary comparison. -/
def win_pct : Option RateWindow → ℚ
  | none => 0
  | some w => w.used_percent.getD 0

/-- A source string (env var or keychain stdout) that is blank: unset, or
whitespace-only after trimming. -/
def opt_blank (o : Option String) : Prop :=
  ∀ t, o = some t → rust_trim t = ""

/-- A keychain blob whose only usable field is the plain API key. -/
def c1_blob : AuthDotJson := ⟨none, some "sk-from-blob"⟩

/-- Configuration where only the secret store yields a token, and that token
is a JSON blob carrying only a plain API key. -/
def c1_env : Env :=
  ⟨none, none, none, none, none,
   fun s => if s = "Codex" then some "blobtext" else none,
   fun r => if r = "blobtext" then some c1_blob else none⟩

/-- Configuration where the primary auth.json parses with a whitespace-only
`tokens.access_token`. -/
def c2_env : Env :=
  ⟨none, none, none, some "authfiletext", none,
   fun _ => none,
   fun r => if r = "authfiletext" then some ⟨some ⟨some "   ", none⟩, none⟩ else none⟩

/-- Configuration with a blank OAuth env var, a blank API-key env var, no
auth.json files, and whitespace-only keychain output for every alias. -/
def w2_env : Env :=
  ⟨some "   ", none, some " ", none, none, fun _ => some "  ", fun _ => none⟩

/-- Configuration where the OAuth-override env var is set and non-blank. -/
def w1_env : Env :=
  ⟨some "tok-env", some "acct-1", none, none, none, fun _ => none, fun _ => none⟩

/-- Configuration whose primary auth.json exists but parses with no usable
field, and whose keychain holds a bare token. -/
def w5_env : Env :=
  ⟨none, none, none, some "junkfile", none,
   fun s => if s = "Codex" then some "kc-token" else none,
   fun r => if r = "junkfile" then some ⟨some ⟨some "", none⟩, some ""⟩ else none⟩

/-- A keychain blob with no token block and an empty plain key. -/
def c10_blob : AuthDotJson := ⟨none, some ""⟩

/-- Configuration where the keychain text parses as a blob with no usable
field. -/
def c10_env : Env :=
  ⟨none, none, none, none, none,
   fun s => if s = "Codex" then some "unrecognized-blob" else none,
   fun r => if r = "unrecognized-blob" then some c10_blob else none⟩

/-- The UsageSnapshot of §8's Plain-mode test vector. -/
def c9_snapshot : WhamUsage :=
  ⟨some "pro", some ⟨some ⟨some 45, some 3600⟩, none, some false⟩⟩

theorem extract_key_access_token_ne (auth : AuthDotJson) (c : Credentials)
    (h : extract_key auth = some c) : c.access_token ≠ "" := by
  cases hk : auth.openai_api_key with
  | none => simp [extract_key, hk] at h
  | some key =>
    simp only [extract_key, hk] at h
    split_ifs at h with hne
    cases h
    exact hne

theorem extract_from_auth_access_token_ne (auth : AuthDotJson) (c : Credentials)
    (h : extract_from_auth auth = some c) : c.access_token ≠ "" := by
  cases htk : auth.tokens with
  | none =>
    simp only [extract_from_auth, htk] at h
    exact extract_key_access_token_ne auth c h
  | some tokens =>
    simp only [extract_from_auth, htk] at h
    split at h
    next access_token heq =>
      split_ifs at h with hne
      · cases h
        exact hne
      · exact extract_key_access_token_ne auth c h
    next heq => exact extract_key_access_token_ne auth c h

theorem read_auth_json_eq_extract (env : Env) (raw : String) :
    read_auth_json env raw =
      (env.parseAuth (rust_trim raw)).bind extract_from_auth := by
  unfold read_auth_json extract_from_auth
  cases env.parseAuth (rust_trim raw) <;> rfl

theorem extract_from_auth_of_oauth (auth : AuthDotJson) (tb : TokenBlock) (t : String)
    (htk : auth.tokens = some tb) (hat : tb.access_token = some t) (hne : t ≠ "") :
    extract_from_auth auth = some ⟨t, tb.account_id, true⟩ := by
  simp only [extract_from_auth, htk, hat]
  rw [if_pos hne]

theorem extract_key_of_key (auth : AuthDotJson) (k : String)
    (hk : auth.openai_api_key = some k) (hne : k ≠ "") :
    extract_key auth = some ⟨k, none, false⟩ := by
  simp only [extract_key, hk]
  rw [if_pos hne]

theorem extract_from_auth_of_key (auth : AuthDotJson) (k : String)
    (hno : ∀ tb t, auth.tokens = some tb → tb.access_token = some t → t = "")
    (hk : auth.openai_api_key = some k) (hne : k ≠ "") :
    extract_from_auth auth = some ⟨k, none, false⟩ := by
  cases htk : auth.tokens with
  | none =>
    simp only [extract_from_auth, htk]
    exact extract_key_of_key auth k hk hne
  | some tokens =>
    simp only [extract_from_auth, htk]
    split
    next access_token hat =>
      rw [if_neg (by simp [hno tokens access_token htk hat])]
      exact extract_key_of_key auth k hk hne
    next hat => exact extract_key_of_key auth k hk hne

theorem extract_key_of_unusable (auth : AuthDotJson)
    (hkey : ∀ k, auth.openai_api_key = some k → k = "") :
    extract_key auth = none := by
  cases hk : auth.openai_api_key with
  | none => simp [extract_key, hk]
  | some key => simp [extract_key, hk, hkey key hk]

theorem extract_from_auth_of_unusable (auth : AuthDotJson)
    (hno : ∀ tb t, auth.tokens = some tb → tb.access_token = some t → t = "")
    (hkey : ∀ k, auth.openai_api_key = some k → k = "") :
    extract_from_auth auth = none := by
  cases htk : auth.tokens with
  | none =>
    simp only [extract_from_auth, htk]
    exact extract_key_of_unusable auth hkey
  | some tokens =>
    simp only [extract_from_auth, htk]
    split
    next access_token hat =>
      rw [if_neg (by simp [hno tokens access_token htk hat])]
      exact extract_key_of_unusable auth hkey
    next hat => exact extract_key_of_unusable auth hkey

theorem get_credentials_of_blank_oauth_env (env : Env)
    (hb : opt_blank env.codex_access_token) :
    get_credentials env = get_credentials_from_api_key env := by
  cases hc : env.codex_access_token with
  | none => simp [get_credentials, hc]
  | some token => simp [get_credentials, hc, hb token hc]

theorem get_credentials_of_blank_api_env (env : Env)
    (hb : opt_blank env.openai_api_key) :
    get_credentials_from_api_key env = get_credentials_from_files env := by
  cases hk : env.openai_api_key with
  | none => simp [get_credentials_from_api_key, hk]
  | some key => simp [get_credentials_from_api_key, hk, hb key hk]

theorem read_auth_json_access_token_ne (env : Env) (raw : String) (c : Credentials)
    (h : read_auth_json env raw = some c) : c.access_token ≠ "" := by
  rw [read_auth_json_eq_extract] at h
  cases hp : env.parseAuth (rust_trim raw) with
  | none => rw [hp] at h; cases h
  | some auth =>
    rw [hp] at h
    exact extract_from_auth_access_token_ne auth c h

theorem keychain_attempt_access_token_ne (env : Env) (out : String) (c : Credentials)
    (h : keychain_attempt env out = some c) : c.access_token ≠ "" := by
  by_cases hraw : rust_trim out = ""
  · simp [keychain_attempt, hraw] at h
  · simp only [keychain_attempt, if_neg hraw] at h
    split at h
    next auth hp =>
      split at h
      next creds he =>
        cases h
        exact extract_from_auth_access_token_ne auth _ he
      next he =>
        cases h
        exact hraw
    next hp =>
      cases h
      exact hraw

theorem read_keychain_go_access_token_ne (env : Env) (names : List String) (c : Credentials)
    (h : read_keychain_go env names = some c) : c.access_token ≠ "" := by
  induction names with
  | nil => cases h
  | cons service rest ih =>
    simp only [read_keychain_go] at h
    split at h
    next out hs =>
      split at h
      next creds ha =>
        cases h
        exact keychain_attempt_access_token_ne env out _ ha
      next ha => exact ih h
    next hs => exact ih h

theorem try_files_access_token_ne (env : Env) (files : List (Option String)) (c : Credentials)
    (h : try_files env files = some c) : c.access_token ≠ "" := by
  induction files with
  | nil => cases h
  | cons f rest ih =>
    cases f with
    | none =>
      simp only [try_files] at h
      exact ih h
    | some raw =>
      simp only [try_files] at h
      split at h
      next creds hr =>
        cases h
        exact read_auth_json_access_token_ne env raw _ hr
      next hr => exact ih h

theorem read_keychain_go_of_blank (env : Env) (names : List String)
    (hb : ∀ s out, env.security s = some out → rust_trim out = "") :
    read_keychain_go env names = none := by
  induction names with
  | nil => rfl
  | cons service rest ih =>
    simp only [read_keychain_go]
    split
    next out hs =>
      rw [show keychain_attempt env out = none from by
        simp [keychain_attempt, hb service out hs]]
      exact ih
    next hs => exact ih

/-- C3: `fetch_usage` on a non-OAuth credential always fails with the
`ApiKeyUnsupported` error, uniformly in the transport outcome and the
body-parse oracle — i.e. the result does not consult the network at all. -/
theorem fetch_apikey_unsupported (creds : Credentials) (h : creds.is_oauth = false) :
    ∀ (net : Option HttpResponse) (parseUsage : String → Option WhamUsage),
      fetch_usage creds net parseUsage = .error .apiKeyUnsupported := by
  intro net parseUsage
  simp [fetch_usage, h]

theorem fetch_apikey_unsupported_witness :
    (Credentials.mk "sk-test" none false).is_oauth = false ∧
    fetch_usage ⟨"sk-test", none, false⟩ (some ⟨200, "body"⟩) (fun _ => none) =
      .error .apiKeyUnsupported :=
  ⟨rfl,
   fetch_apikey_unsupported ⟨"sk-test", none, false⟩ rfl (some ⟨200, "body"⟩) (fun _ => none)⟩

/-- C4: for an OAuth credential and a delivered response, `fetch_usage` fails
with `Unauthorized` exactly when the status is 401 or 403, and fails with
`ApiError` carrying the response body verbatim for every other non-2xx
status. -/
theorem fetch_status_mapping (creds : Credentials) (resp : HttpResponse)
    (parseUsage : String → Option WhamUsage) (hoauth : creds.is_oauth = true) :
    ((resp.status = 401 ∨ resp.status = 403) →
      fetch_usage creds (some resp) parseUsage = .error (.unauthorized resp.status)) ∧
    ((∃ s, fetch_usage creds (some resp) parseUsage = .error (.unauthorized s)) →
      (resp.status = 401 ∨ resp.status = 403)) ∧
    (¬(200 ≤ resp.status ∧ resp.status ≤ 299) → ¬(resp.status = 401 ∨ resp.status = 403) →
      fetch_usage creds (some resp) parseUsage = .error (.apiError resp.status resp.body)) := by
  refine ⟨?_, ?_, ?_⟩
  · intro h401
    rcases h401 with h | h <;> simp [fetch_usage, hoauth, h]
  · rintro ⟨s, hs⟩
    by_contra hno
    simp only [fetch_usage, hoauth] at hs
    rw [if_neg (by simp)] at hs
    rw [if_neg hno] at hs
    split_ifs at hs with h2
    · simp at hs
    · split at hs
      · simp at hs
      · simp at hs
  · intro hnot2xx hno
    have hfail : status_is_success resp.status = false := by
      simp only [status_is_success, Bool.and_eq_false_iff, decide_eq_false_iff_not]
      omega
    simp [fetch_usage, hoauth, hno, hfail]

theorem fetch_status_mapping_witness :
    fetch_usage ⟨"tok", none, true⟩ (some ⟨500, "oops"⟩) (fun _ => none) =
      .error (.apiError 500 "oops") :=
  (fetch_status_mapping ⟨"tok", none, true⟩ ⟨500, "oops"⟩ (fun _ => none) rfl).2.2
    (by decide) (by decide)

/-- C1 counterexample: in `c1_env` both env vars and both auth.json files are
absent, so the secret store is the only source that yields a non-blank token;
its text parses as a credential blob whose only usable field is the plain API
key, and `get_credentials` returns that key with `is_oauth = false` — against
the claim that a secret-store credential always carries `is_oauth = true`. -/
theorem keychain_plain_key_counterexample :
    c1_env.codex_access_token = none ∧ c1_env.openai_api_key = none ∧
    c1_env.authFilePrimary = none ∧ c1_env.authFileSecondary = none ∧
    get_credentials c1_env = some ⟨"sk-from-blob", none, false⟩ := by
  refine ⟨rfl, rfl, rfl, rfl, ?_⟩
  decide

/-- C1 (amended): the resolution priority is OAuth-env > API-key-env >
primary file > secondary file > secret store, first success winning
deterministically, and each source's credential carries the
source-appropriate `is_oauth`: true for the OAuth env var, a file's
OAuth-token block, a keychain blob's OAuth-token block and a keychain value
used verbatim as a bearer token; false for the API-key env var, a file's
plain-key field, and — the amendment — a keychain blob whose usable field is
the plain-key field. -/
theorem credential_priority_origin :
    (∀ env t, env.codex_access_token = some t → rust_trim t ≠ "" →
      get_credentials env = some ⟨rust_trim t, env.codex_account_id, true⟩) ∧
    (∀ env k, opt_blank env.codex_access_token → env.openai_api_key = some k →
      rust_trim k ≠ "" → get_credentials env = some ⟨rust_trim k, none, false⟩) ∧
    (∀ env raw c, opt_blank env.codex_access_token → opt_blank env.openai_api_key →
      env.authFilePrimary = some raw → read_auth_json env raw = some c →
      get_credentials env = some c) ∧
    (∀ env raw c, opt_blank env.codex_access_token → opt_blank env.openai_api_key →
      (∀ r, env.authFilePrimary = some r → read_auth_json env r = none) →
      env.authFileSecondary = some raw → read_auth_json env raw = some c →
      get_credentials env = some c) ∧
    (∀ env, opt_blank env.codex_access_token → opt_blank env.openai_api_key →
      (∀ r, env.authFilePrimary = some r → read_auth_json env r = none) →
      (∀ r, env.authFileSecondary = some r → read_auth_json env r = none) →
      get_credentials env = read_keychain env) ∧
    (∀ env raw auth tb t, env.parseAuth (rust_trim raw) = some auth →
      auth.tokens = some tb → tb.access_token = some t → t ≠ "" →
      read_auth_json env raw = some ⟨t, tb.account_id, true⟩) ∧
    (∀ env raw auth k, env.parseAuth (rust_trim raw) = some auth →
      (∀ tb t, auth.tokens = some tb → tb.access_token = some t → t = "") →
      auth.openai_api_key = some k → k ≠ "" →
      read_auth_json env raw = some ⟨k, none, false⟩) ∧
    (∀ env out auth tb t, rust_trim out ≠ "" →
      env.parseAuth (rust_trim out) = some auth →
      auth.tokens = some tb → tb.access_token = some t → t ≠ "" →
      keychain_attempt env out = some ⟨t, tb.account_id, true⟩) ∧
    (∀ env out auth k, rust_trim out ≠ "" →
      env.parseAuth (rust_trim out) = some auth →
      (∀ tb t, auth.tokens = some tb → tb.access_token = some t → t = "") →
      auth.openai_api_key = some k → k ≠ "" →
      keychain_attempt env out = some ⟨k, none, false⟩) ∧
    (∀ env out, rust_trim out ≠ "" → env.parseAuth (rust_trim out) = none →
      keychain_attempt env out = some ⟨rust_trim out, none, true⟩) ∧
    (∀ env service rest out c, env.security service = some out →
      keychain_attempt env out = some c →
      read_keychain_go env (service :: rest) = some c) := by
  refine ⟨?_, ?_, ?_, ?_, ?_, ?_, ?_, ?_, ?_, ?_, ?_⟩
  · intro env t hc hne
    simp only [get_credentials, hc]
    rw [if_pos hne]
  · intro env k hb hk hne
    rw [get_credentials_of_blank_oauth_env env hb]
    simp only [get_credentials_from_api_key, hk]
    rw [if_pos hne]
  · intro env raw c hbc hba hp hr
    rw [get_credentials_of_blank_oauth_env env hbc, get_credentials_of_blank_api_env env hba]
    simp [get_credentials_from_files, try_files, hp, hr]
  · intro env raw c hbc hba hpf hs hr
    rw [get_credentials_of_blank_oauth_env env hbc, get_credentials_of_blank_api_env env hba]
    have h2 : try_files env [env.authFilePrimary, env.authFileSecondary] = some c := by
      cases hp : env.authFilePrimary with
      | none => simp [try_files, hs, hr]
      | some r => simp [try_files, hs, hr, hpf r hp]
    simp [get_credentials_from_files, h2]
  · intro env hbc hba hpf hsf
    rw [get_credentials_of_blank_oauth_env env hbc, get_credentials_of_blank_api_env env hba]
    have h2 : try_files env [env.authFilePrimary, env.authFileSecondary] = none := by
      cases hp : env.authFilePrimary with
      | none =>
        cases hs : env.authFileSecondary with
        | none => simp [try_files]
        | some r => simp [try_files, hsf r hs]
      | some r =>
        cases hs : env.authFileSecondary with
        | none => simp [try_files, hpf r hp]
        | some r2 => simp [try_files, hpf r hp, hsf r2 hs]
    simp [get_credentials_from_files, h2]
  · intro env raw auth tb t hparse htk hat hne
    rw [read_auth_json_eq_extract, hparse, Option.some_bind]
    exact extract_from_auth_of_oauth auth tb t htk hat hne
  · intro env raw auth k hparse hno hk hne
    rw [read_auth_json_eq_extract, hparse, Option.some_bind]
    exact extract_from_auth_of_key auth k hno hk hne
  · intro env out auth tb t hne hparse htk hat htne
    simp [keychain_attempt, hne, hparse,
      extract_from_auth_of_oauth auth tb t htk hat htne]
  · intro env out auth k hne hparse hno hk hkne
    simp [keychain_attempt, hne, hparse,
      extract_from_auth_of_key auth k hno hk hkne]
  · intro env out hne hparse
    simp [keychain_attempt, hne, hparse]
  · intro env service rest out c hs ha
    simp [read_keychain_go, hs, ha]

theorem credential_priority_origin_witness :
    get_credentials w1_env = some ⟨"tok-env", some "acct-1", true⟩ :=
  credential_priority_origin.1 w1_env "tok-env" rfl (by decide)

/-- C2 counterexample: in `c2_env` the primary auth.json parses with a
whitespace-only `tokens.access_token`; `read_auth_json` only checks exact
emptiness, so `get_credentials` returns a credential whose token is
whitespace-only — against the claim that every source treats whitespace-only
tokens as absent. -/
theorem whitespace_file_token_counterexample :
    get_credentials c2_env = some ⟨"   ", none, true⟩ ∧ rust_trim "   " = "" := by
  exact ⟨by decide, by decide⟩

/-- C2 (amended): blank (whitespace-only) values are treated as absent by the
two environment variables and by the raw secret-store output, and
`get_credentials` never returns a credential whose token is the empty string;
but the credential-file fields and secret-store blob fields are only checked
for exact emptiness, so a whitespace-only token originating there can be
returned. -/
theorem resolve_token_nonempty :
    (∀ env c, get_credentials env = some c → c.access_token ≠ "") ∧
    (∀ env, opt_blank env.codex_access_token → opt_blank env.openai_api_key →
      env.authFilePrimary = none → env.authFileSecondary = none →
      (∀ s out, env.security s = some out → rust_trim out = "") →
      get_credentials env = none) := by
  constructor
  · intro env c h
    rw [get_credentials] at h
    have hfiles : ∀ h2 : get_credentials_from_files env = some c, c.access_token ≠ "" := by
      intro h2
      rw [get_credentials_from_files] at h2
      split at h2
      next creds htf =>
        cases h2
        exact try_files_access_token_ne env _ _ htf
      next htf => exact read_keychain_go_access_token_ne env _ c h2
    have hapi : ∀ h2 : get_credentials_from_api_key env = some c, c.access_token ≠ "" := by
      intro h2
      rw [get_credentials_from_api_key] at h2
      split at h2
      next key hk =>
        split_ifs at h2 with hne
        · cases h2
          exact hne
        · exact hfiles h2
      next hk => exact hfiles h2
    split at h
    next token hc =>
      split_ifs at h with hne
      · cases h
        exact hne
      · exact hapi h
    next hc => exact hapi h
  · intro env hbc hba hp hs hkc
    rw [get_credentials_of_blank_oauth_env env hbc, get_credentials_of_blank_api_env env hba]
    rw [show get_credentials_from_files env = read_keychain env from by
      simp [get_credentials_from_files, try_files, hp, hs]]
    exact read_keychain_go_of_blank env service_names hkc

theorem resolve_token_nonempty_witness :
    get_credentials w2_env = none :=
  resolve_token_nonempty.2 w2_env
    (by intro t h; injection h with h2; rw [← h2]; decide)
    (by intro t h; injection h with h2; rw [← h2]; decide)
    rfl rfl
    (by intro s out h; injection h with h2; rw [← h2]; decide)

theorem try_files_none_of_miss (env : Env)
    (hpf : ∀ r, env.authFilePrimary = some r → read_auth_json env r = none)
    (hsf : ∀ r, env.authFileSecondary = some r → read_auth_json env r = none) :
    try_files env [env.authFilePrimary, env.authFileSecondary] = none := by
  cases hp : env.authFilePrimary with
  | none =>
    cases hs : env.authFileSecondary with
    | none => simp [try_files]
    | some r => simp [try_files, hsf r hs]
  | some r =>
    cases hs : env.authFileSecondary with
    | none => simp [try_files, hpf r hp]
    | some r2 => simp [try_files, hpf r hp, hsf r2 hs]

/-- C5: a credential file that fails to parse, or parses with no usable token
field and no usable key field, is silently swallowed: `read_auth_json`
reports a miss, resolution behaves exactly as if that file were absent, and
when both files miss it continues to the secret store instead of aborting. -/
theorem file_parse_failure_falls_through :
    (∀ env raw, env.parseAuth (rust_trim raw) = none → read_auth_json env raw = none) ∧
    (∀ env raw auth, env.parseAuth (rust_trim raw) = some auth →
      (∀ tb t, auth.tokens = some tb → tb.access_token = some t → t = "") →
      (∀ k, auth.openai_api_key = some k → k = "") →
      read_auth_json env raw = none) ∧
    (∀ env raw, opt_blank env.codex_access_token → opt_blank env.openai_api_key →
      env.authFilePrimary = some raw → read_auth_json env raw = none →
      get_credentials env = get_credentials
        ⟨env.codex_access_token, env.codex_account_id, env.openai_api_key,
         none, env.authFileSecondary, env.security, env.parseAuth⟩) ∧
    (∀ env, opt_blank env.codex_access_token → opt_blank env.openai_api_key →
      (∀ r, env.authFilePrimary = some r → read_auth_json env r = none) →
      (∀ r, env.authFileSecondary = some r → read_auth_json env r = none) →
      get_credentials env = read_keychain env) := by
  refine ⟨?_, ?_, ?_, ?_⟩
  · intro env raw hparse
    rw [read_auth_json_eq_extract, hparse]
    rfl
  · intro env raw auth hparse hno hkey
    rw [read_auth_json_eq_extract, hparse, Option.some_bind]
    exact extract_from_auth_of_unusable auth hno hkey
  · intro env raw hbc hba hp hfail
    have e3 := get_credentials_of_blank_oauth_env
      ⟨env.codex_access_token, env.codex_account_id, env.openai_api_key,
       none, env.authFileSecondary, env.security, env.parseAuth⟩ hbc
    have e4 := get_credentials_of_blank_api_env
      ⟨env.codex_access_token, env.codex_account_id, env.openai_api_key,
       none, env.authFileSecondary, env.security, env.parseAuth⟩ hba
    rw [get_credentials_of_blank_oauth_env env hbc, get_credentials_of_blank_api_env env hba,
      e3, e4]
    simp only [get_credentials_from_files, try_files, hp, hfail]
    rfl
  · intro env hbc hba hpf hsf
    rw [get_credentials_of_blank_oauth_env env hbc, get_credentials_of_blank_api_env env hba]
    simp [get_credentials_from_files, try_files_none_of_miss env hpf hsf]

theorem file_parse_failure_falls_through_witness :
    get_credentials w5_env = some ⟨"kc-token", none, true⟩ := by
  have h := file_parse_failure_falls_through.2.2.2 w5_env
    (by intro t h; cases h)
    (by intro t h; cases h)
    (by intro r h; injection h with h2; rw [← h2]; decide)
    (by intro r h; cases h)
  rw [h]
  decide

/-- C10: for an alias whose retrieved text is non-blank and parses as the
structured blob but contains neither a non-empty OAuth access token nor a
non-empty plain key, the entire (trimmed) raw text — the JSON itself — is
returned verbatim as an OAuth bearer token with `is_oauth = true`, rather
than being treated as a miss for that alias. -/
theorem keychain_json_fallback_verbatim (env : Env) (service : String)
    (rest : List String) (out : String) (auth : AuthDotJson)
    (hsec : env.security service = some out)
    (hne : rust_trim out ≠ "")
    (hparse : env.parseAuth (rust_trim out) = some auth)
    (htok : ∀ tb t, auth.tokens = some tb → tb.access_token = some t → t = "")
    (hkey : ∀ k, auth.openai_api_key = some k → k = "") :
    read_keychain_go env (service :: rest) = some ⟨rust_trim out, none, true⟩ := by
  have ha : keychain_attempt env out = some ⟨rust_trim out, none, true⟩ := by
    simp [keychain_attempt, hne, hparse, extract_from_auth_of_unusable auth htok hkey]
  simp [read_keychain_go, hsec, ha]

theorem keychain_json_fallback_verbatim_witness :
    read_keychain c10_env = some ⟨"unrecognized-blob", none, true⟩ :=
  keychain_json_fallback_verbatim c10_env "Codex" ["codex", "openai-codex", "Codex CLI"]
    "unrecognized-blob" c10_blob (by decide) (by decide) (by decide)
    (by intro tb t h1 h2; cases h1)
    (by intro k h; injection h with h2; exact h2.symm)

/-- C6: the fancy-mode closing summary is chosen by the maximum
`used_percent` over the two windows, an absent window counting as 0 in the
comparison (for in-range percentages), with inclusive thresholds: 100 or
`limit_reached` for the limit tier, 90 for the nearly-at-limit tier (so
exactly 90 lands there, not in the elevated tier), 70 for the elevated
tier, and the plenty tier otherwise. -/
theorem summary_tier_selection (limit : Bool) (primary secondary : Option RateWindow)
    (hp : 0 ≤ win_pct primary) (hs : 0 ≤ win_pct secondary) :
    highest_used primary secondary = max (win_pct primary) (win_pct secondary) ∧
    (∀ h : ℚ,
      (summary_tier limit h = .limitReached ↔ (limit = true ∨ 100 ≤ h)) ∧
      (summary_tier limit h = .nearlyAtLimit ↔ (¬(limit = true ∨ 100 ≤ h) ∧ 90 ≤ h)) ∧
      (summary_tier limit h = .elevated ↔
        (¬(limit = true ∨ 100 ≤ h) ∧ ¬90 ≤ h ∧ 70 ≤ h)) ∧
      (summary_tier limit h = .plenty ↔
        (¬(limit = true ∨ 100 ≤ h) ∧ ¬90 ≤ h ∧ ¬70 ≤ h))) ∧
    summary_tier false 90 = .nearlyAtLimit := by
  refine ⟨?_, ?_, by decide⟩
  · cases primary with
    | none =>
      cases secondary with
      | none => simp [highest_used, win_pct]
      | some w => simp [highest_used, win_pct]
    | some w =>
      cases secondary with
      | none =>
        simp only [highest_used, win_pct, List.filterMap, List.foldl, Option.map_some,
          Option.map_none]
        simp [max_comm]
      | some w2 =>
        simp only [highest_used, win_pct, List.filterMap, List.foldl, Option.map_some,
          Option.map_none]
        rw [max_eq_right (hp.trans_eq (by simp [win_pct]))]
  · intro h
    unfold summary_tier
    by_cases h1 : limit = true ∨ 100 ≤ h
    · simp [h1]
    · rw [if_neg h1]
      by_cases h2 : 90 ≤ h
      · simp [h1, h2]
      · rw [if_neg h2]
        by_cases h3 : 70 ≤ h
        · simp [h1, h2, h3]
        · rw [if_neg h3]
          simp [h1, h2, h3]

theorem summary_tier_selection_witness :
    highest_used (some ⟨some 95, none⟩) none =
      max (win_pct (some ⟨some 95, none⟩)) (win_pct none) ∧
    summary_tier false 90 = .nearlyAtLimit :=
  ⟨(summary_tier_selection false (some ⟨some 95, none⟩) none (by decide) (by decide)).1,
   (summary_tier_selection false (some ⟨some 95, none⟩) none (by decide) (by decide)).2.2⟩

theorem round_mono_rat (a b : ℚ) (hab : a ≤ b) : round a ≤ round b := by
  rw [round_eq, round_eq]
  exact Int.floor_mono (by linarith)

theorem rust_round_toNat_eq (q : ℚ) : (rust_round q).toNat = (round q).toNat := by
  rcases lt_or_le q 0 with hq | hq
  · have h1 : rust_round q = -⌊-q + 1/2⌋ := if_pos hq
    have h2 : (0:ℤ) ≤ ⌊-q + 1/2⌋ := by
      apply Int.le_floor.mpr
      push_cast
      linarith
    have h3 : round q ≤ 0 := by
      rw [round_eq]
      have h4 : ⌊q + 1/2⌋ ≤ ⌊(1:ℚ)/2⌋ := Int.floor_mono (by linarith)
      have h5 : ⌊(1:ℚ)/2⌋ = 0 := by norm_num
      omega
    rw [h1, Int.toNat_of_nonpos (by omega), Int.toNat_of_nonpos h3]
  · rw [rust_round, if_neg (not_lt.mpr hq), round_eq]

/-- C7: the fancy-mode bar of width 28 fills exactly
`round(used_percent / 100 * 28)` cells, clamped to at most 28: 50 percent
gives 14 cells, 100 percent gives 28, and no input — in particular none
above 100 — ever fills more than 28. -/
theorem fancy_bar_fill :
    usage_bar_filled (print_window_fancy_pct ⟨some 50, none⟩) 28 = 14 ∧
    usage_bar_filled (print_window_fancy_pct ⟨some 100, none⟩) 28 = 28 ∧
    (∀ pct : ℚ, usage_bar_filled pct 28 ≤ 28) ∧
    (∀ pct : ℚ,
      usage_bar_filled (print_window_fancy_pct ⟨some pct, none⟩) 28 =
        min (round (pct / 100 * 28)).toNat 28) := by
  refine ⟨?_, ?_, ?_, ?_⟩
  · have h50 : print_window_fancy_pct ⟨some 50, none⟩ = 50 := by
      norm_num [print_window_fancy_pct, min_def]
    rw [h50, usage_bar_filled, rust_round, if_neg (by norm_num)]
    norm_num [Int.toNat_ofNat]
    decide
  · have h100 : print_window_fancy_pct ⟨some 100, none⟩ = 100 := by
      norm_num [print_window_fancy_pct, min_def]
    rw [h100, usage_bar_filled, rust_round, if_neg (by norm_num)]
    norm_num [Int.toNat_ofNat]
    decide
  · intro pct
    rw [usage_bar_filled]
    exact min_le_right _ _
  · intro pct
    rcases le_or_lt pct 100 with hle | hlt
    · have h1 : print_window_fancy_pct ⟨some pct, none⟩ = pct := by
        simp [print_window_fancy_pct, min_eq_left hle]
      rw [h1, usage_bar_filled, rust_round_toNat_eq]
      norm_num
    · have h1 : print_window_fancy_pct ⟨some pct, none⟩ = 100 := by
        simp [print_window_fancy_pct, min_eq_right hlt.le]
      have hL : usage_bar_filled 100 28 = 28 := by
        rw [usage_bar_filled, rust_round, if_neg (by norm_num)]
        norm_num [Int.toNat_ofNat]
        decide
      rw [h1, hL]
      have hq : (28:ℚ) ≤ pct / 100 * 28 := by linarith
      have h28 : (28:ℤ) ≤ round (pct / 100 * 28) := by
        have hm := round_mono_rat 28 (pct / 100 * 28) hq
        simpa using hm
      omega

/-- C8: `format_reset` maps 0 seconds to "now", 59 seconds to the
minutes-only form ("in 0m"), 3660 seconds to "1h 1m" and 90000 seconds to
the day-plus-hour form "1d 1h"; for every duration of an hour or more it
shows the two most significant units (days+hours from one day up,
hours+minutes below that). -/
theorem format_reset_humanization :
    format_reset (some 0) = "now" ∧
    format_reset (some 59) = "in 0m" ∧
    format_reset (some 3660) = "in 1h 1m" ∧
    format_reset (some 90000) = "in 1d 1h" ∧
    (∀ s : ℕ, 3600 ≤ s → s < 86400 →
      format_reset (some s) =
        "in " ++ toString (s / 3600) ++ "h " ++ toString (s / 60 % 60) ++ "m") ∧
    (∀ s : ℕ, 86400 ≤ s →
      format_reset (some s) =
        "in " ++ toString (s / 86400) ++ "d " ++ toString (s / 3600 % 24) ++ "h") := by
  refine ⟨by decide, by decide, by decide, by decide, ?_, ?_⟩
  · intro s h1 h2
    have h0 : ¬ s = 0 := by omega
    have e1 : s / 60 / 60 / 24 = 0 := by omega
    have e2 : s / 60 / 60 = s / 3600 := by omega
    have e3 : 0 < s / 3600 := by omega
    simp only [format_reset, if_neg h0]
    rw [e1, if_neg (lt_irrefl 0), e2, if_pos e3]
  · intro s h1
    have h0 : ¬ s = 0 := by omega
    have e1 : s / 60 / 60 / 24 = s / 86400 := by omega
    have e2 : 0 < s / 86400 := by omega
    have e3 : s / 60 / 60 = s / 3600 := by omega
    simp only [format_reset, if_neg h0]
    rw [e1, if_pos e2, e3]

theorem format_reset_humanization_witness :
    format_reset (some 7200) =
      "in " ++ toString (7200 / 3600) ++ "h " ++ toString (7200 / 60 % 60) ++ "m" :=
  format_reset_humanization.2.2.2.2.1 7200 (by decide) (by decide)

/-- C9: plain-mode rendering is a pure function of the snapshot; on the
test vector (plan "pro", primary window 45 percent resetting in 3600 s, no
secondary window, limit not reached) its output is exactly the three lines
shown, containing "PRO", "45.0% used", and the N/A placeholder line for the
missing window. -/
theorem plain_render_contents :
    run_plain c9_snapshot =
      "Plan: PRO\n5hr window: 45.0% used  Resets in: 3600s\n7day window: N/A\n" ∧
    (∃ x y, run_plain c9_snapshot = x ++ "PRO" ++ y) ∧
    (∃ x y, run_plain c9_snapshot = x ++ "45.0% used" ++ y) ∧
    (∃ x y, run_plain c9_snapshot = x ++ "7day window: N/A" ++ y) := by
  have hfmt : fmt1 45 = "45.0" := by
    have habs : |(45:ℚ)| * 10 = 450 := by norm_num
    rw [fmt1, habs]
    have hrhe : round_half_even 450 = 450 := by
      unfold round_half_even
      norm_num
    rw [hrhe, if_neg (by norm_num)]
    decide
  have hmin : min ((some (45:ℚ)).getD 0) 100 = 45 := by
    norm_num [Option.getD_some, min_def]
  have hpw : print_window_plain "5hr window" (some ⟨some 45, some 3600⟩) =
      "5hr window" ++ ": " ++ fmt1 45 ++ "% used  Resets in: " ++ "3600s" := by
    simp only [print_window_plain, hmin]
    congr 1
  have hrun : run_plain c9_snapshot =
      "Plan: " ++ to_uppercase "pro" ++ "\n"
        ++ print_window_plain "5hr window" (some ⟨some 45, some 3600⟩) ++ "\n"
        ++ print_window_plain "7day window" none ++ "\n" ++ "" := by
    rfl
  have hmain : run_plain c9_snapshot =
      "Plan: PRO\n5hr window: 45.0% used  Resets in: 3600s\n7day window: N/A\n" := by
    rw [hrun, hpw, hfmt]
    decide
  refine ⟨hmain,
    ⟨"Plan: ", "\n5hr window: 45.0% used  Resets in: 3600s\n7day window: N/A\n", ?_⟩,
    ⟨"Plan: PRO\n5hr window: ", "  Resets in: 3600s\n7day window: N/A\n", ?_⟩,
    ⟨"Plan: PRO\n5hr window: 45.0% used  Resets in: 3600s\n", "\n", ?_⟩⟩ <;>
    rw [hmain] <;> decide
